import Mathlib

/-!
Shallow embedding of the AutoStack API gateway (services/api-gateway/src):
the relational data model, the authentication middleware (middleware/auth.js)
and the ownership-scoped route handlers of routes/projects.js,
routes/analysis.js and routes/templates.js (which also holds the deployments
router).  SQL tables are lists of rows; each Express handler is a pure
function from the store, the authenticated user and the request body to an
updated store and a response.  An outbound axios call to a downstream
service is a parameter of type Except Unit α: the handler branches on it
exactly where the source's try/catch around the call does.  Timestamp
columns (created_at, updated_at, deployed_at) are omitted: no handler
branches on them.
-/

namespace AutoStack

/-- users table row (schema in the SQLite manager; pg schema is equivalent). -/
structure User where
  id : Nat
  email : String
  password_hash : String
  subscription_tier : String
  api_key : Option String
  deriving DecidableEq, Repr

/-- The identity attached to the request by the auth middleware:
`SELECT id, email, subscription_tier FROM users`. -/
structure AuthedUser where
  id : Nat
  email : String
  subscription_tier : String
  deriving DecidableEq, Repr

/-- projects table row. -/
structure Project where
  id : Nat
  user_id : Nat
  name : String
  description : Option String
  repository_url : Option String
  language : Option String
  framework : Option String
  status : String
  deriving DecidableEq, Repr

/-- code_analyses table row. -/
structure CodeAnalysis where
  id : Nat
  project_id : Nat
  file_path : String
  language : Option String
  framework : Option String
  dependencies : Option String
  requirements : Option String
  analysis_results : Option String
  status : String
  deriving DecidableEq, Repr

/-- infrastructure_templates table row; estimated_cost REAL is modelled
as an integer number of cost units. -/
structure InfrastructureTemplate where
  id : Nat
  project_id : Nat
  template_type : String
  template_content : String
  estimated_cost : Int
  resources : String
  optimization_suggestions : String
  deriving DecidableEq, Repr

/-- deployments table row. -/
structure Deployment where
  id : Nat
  template_id : Nat
  status : String
  deployment_url : Option String
  terraform_state_url : Option String
  logs : Option String
  error_message : Option String
  deriving DecidableEq, Repr

/-- The relational store behind the pg Pool. -/
structure Store where
  users : List User
  projects : List Project
  code_analyses : List CodeAnalysis
  infrastructure_templates : List InfrastructureTemplate
  deployments : List Deployment
  deriving DecidableEq, Repr

/-- An HTTP response: res.status(s).json({...}) with either a success body
or an {error: msg} body. -/
inductive Rsp (α : Type) where
  | ok (status : Nat) (body : α)
  | err (status : Nat) (error : String)
  deriving DecidableEq, Repr

/-- The HTTP status code of a response. -/
def Rsp.code {α : Type} : Rsp α → Nat
  | .ok s _ => s
  | .err s _ => s

/-- Fresh primary key for an insert: one more than the largest id in use,
as a serial/uuid column never collides with an existing row. -/
def freshNat (ids : List Nat) : Nat := ids.foldr max 0 + 1

theorem le_foldr_max {ids : List Nat} {x : Nat} (hx : x ∈ ids) :
    x ≤ ids.foldr max 0 := by
  induction ids with
  | nil => cases hx
  | cons a l ih =>
    rcases List.mem_cons.mp hx with h | h
    · subst h; exact Nat.le_max_left _ _
    · exact Nat.le_trans (ih h) (Nat.le_max_right _ _)

theorem lt_freshNat {ids : List Nat} {x : Nat} (hx : x ∈ ids) :
    x < freshNat ids :=
  Nat.lt_succ_of_le (le_foldr_max hx)

theorem freshNat_not_mem (ids : List Nat) : freshNat ids ∉ ids := by
  intro h
  exact absurd (lt_freshNat h) (Nat.lt_irrefl _)

/-! ## middleware/auth.js -/

/-- Outcome of jwt.verify on the presented bearer token: the verify call
throws on a malformed or expired token and otherwise yields the decoded
payload's userId subject. -/
inductive Token where
  | malformed (raw : String)
  | signed (userId : Nat)
  deriving DecidableEq, Repr

/-- Result of the authentication middleware: an error response, or the
resolved identity attached to req.user. -/
inductive AuthResult where
  | failure (status : Nat) (error : String)
  | success (user : AuthedUser)
  deriving DecidableEq, Repr

/-- middleware/auth.js authenticateToken: missing token is 401
"Access token required"; a token jwt.verify throws on is 403
"Invalid or expired token"; a verified token whose subject has no user row
is 401 "Invalid token"; otherwise the projected user row is attached. -/
def authenticateToken (users : List User) (token : Option Token) : AuthResult :=
  match token with
  | none => .failure 401 "Access token required"
  | some (.malformed _) => .failure 403 "Invalid or expired token"
  | some (.signed uid) =>
    match users.find? (fun u => u.id == uid) with
    | none => .failure 401 "Invalid token"
    | some u => .success { id := u.id, email := u.email,
                           subscription_tier := u.subscription_tier }

/-- The tierLevels object literal in checkSubscription; a lookup of a key
that is not a property yields undefined, modelled as none. -/
def tierLevels (tier : String) : Option Nat :=
  if tier = "free" then some 0
  else if tier = "starter" then some 1
  else if tier = "pro" then some 2
  else if tier = "enterprise" then some 3
  else none

/-- JavaScript < on the two looked-up levels: when either operand is
undefined the comparison is performed against NaN and is false. -/
def jsLt : Option Nat → Option Nat → Bool
  | some a, some b => a < b
  | _, _ => false

/-- Outcome of the checkSubscription middleware: a 403
"Subscription upgrade required" response carrying both tiers, or next(). -/
inductive Gate where
  | reject (required current : String)
  | pass
  deriving DecidableEq, Repr

/-- middleware/auth.js checkSubscription(requiredTier) applied to the
authenticated user's subscription_tier. -/
def checkSubscription (requiredTier userTier : String) : Gate :=
  if jsLt (tierLevels userTier) (tierLevels requiredTier) then
    .reject requiredTier userTier
  else
    .pass

/-! ## routes/projects.js -/

/-- Body of POST + PUT /projects: fields absent from the JSON body are
undefined, modelled as none. -/
structure ProjectBody where
  name : Option String
  description : Option String
  repository_url : Option String
  language : Option String
  framework : Option String
  deriving DecidableEq, Repr

/-- The limits object literal of the create handler:
{ free: 5, starter: 20, pro: Infinity, enterprise: Infinity }; a lookup of
an unknown tier yields undefined. -/
inductive JsLimit where
  | num (n : Nat)
  | inf
  | missing
  deriving DecidableEq, Repr

def projectLimits (tier : String) : JsLimit :=
  if tier = "free" then .num 5
  else if tier = "starter" then .num 20
  else if tier = "pro" then .inf
  else if tier = "enterprise" then .inf
  else .missing

/-- JavaScript count >= limit for a finite count: false against Infinity
and false against undefined (NaN comparison). -/
def jsGe (count : Nat) : JsLimit → Bool
  | .num l => l ≤ count
  | .inf => false
  | .missing => false

/-- POST /projects: requires a truthy name, enforces the per-tier project
count quota, then inserts and returns the new row with status 201. -/
def projectsCreate (s : Store) (u : AuthedUser) (b : ProjectBody) :
    Store × Rsp Project :=
  match b.name with
  | none => (s, .err 400 "Project name required")
  | some nm =>
    if nm = "" then (s, .err 400 "Project name required")
    else
      let count := (s.projects.filter (fun p => p.user_id == u.id)).length
      if jsGe count (projectLimits u.subscription_tier) then
        (s, .err 403 "Project limit reached for your subscription tier")
      else
        let p : Project :=
          { id := freshNat (s.projects.map (·.id)), user_id := u.id,
            name := nm, description := b.description,
            repository_url := b.repository_url, language := b.language,
            framework := b.framework, status := "active" }
        ({ s with projects := s.projects ++ [p] }, .ok 201 p)

/-- GET /projects/:id: SELECT * FROM projects WHERE id = $1 AND user_id = $2;
an empty result is 404 "Project not found". -/
def projectsGetById (s : Store) (uid pid : Nat) : Rsp Project :=
  match s.projects.find? (fun p => p.id == pid && p.user_id == uid) with
  | none => .err 404 "Project not found"
  | some p => .ok 200 p

/-- The COALESCE field patch of the UPDATE statement. -/
def patchProject (p : Project) (b : ProjectBody) : Project :=
  { p with name := b.name.getD p.name,
           description := b.description <|> p.description,
           repository_url := b.repository_url <|> p.repository_url,
           language := b.language <|> p.language,
           framework := b.framework <|> p.framework }

/-- PUT /projects/:id: UPDATE ... WHERE id = $6 AND user_id = $7 RETURNING *;
zero updated rows is 404 "Project not found". -/
def projectsUpdate (s : Store) (uid pid : Nat) (b : ProjectBody) :
    Store × Rsp Project :=
  match s.projects.find? (fun p => p.id == pid && p.user_id == uid) with
  | none => (s, .err 404 "Project not found")
  | some p =>
    let projects := s.projects.map
      (fun q => if q.id == pid && q.user_id == uid then patchProject q b else q)
    ({ s with projects := projects }, .ok 200 (patchProject p b))

/-- DELETE /projects/:id: DELETE FROM projects WHERE id = $1 AND user_id = $2
RETURNING id; zero deleted rows is 404 "Project not found". -/
def projectsDelete (s : Store) (uid pid : Nat) : Store × Rsp String :=
  if s.projects.any (fun p => p.id == pid && p.user_id == uid) then
    let projects := s.projects.filter (fun p => !(p.id == pid && p.user_id == uid))
    ({ s with projects := projects }, .ok 200 "Project deleted successfully")
  else
    (s, .err 404 "Project not found")

/-- The per-file multer configuration of routes/projects.js: a 100MB
fileSize limit and the fileFilter extension allow-list
/\.(js|ts|py|java|go|rb|php|cs|cpp|c|h|json|yaml|yml|dockerfile|tf|hcl)$/i. -/
structure UploadFile where
  originalname : String
  size : Nat
  deriving DecidableEq, Repr

def allowedExtensions : List String :=
  ["js", "ts", "py", "java", "go", "rb", "php", "cs", "cpp", "c", "h",
   "json", "yaml", "yml", "dockerfile", "tf", "hcl"]

/-- Case folding performed by the regex's i flag (the pattern itself is
all-ASCII). -/
def asciiLower (c : Char) : Char :=
  if 'A' ≤ c ∧ c ≤ 'Z' then Char.ofNat (c.toNat + 32) else c

/-- The fileFilter regex test: the name ends, case-insensitively, in a dot
followed by one of the allow-listed extensions. -/
def fileFilterAccepts (name : String) : Bool :=
  allowedExtensions.any (fun e => ('.' :: e.data).isSuffixOf (name.data.map asciiLower))

/-- Whether multer accepts the whole upload call: at most 50 files
(upload.array('files', 50)), each file within the 100MB fileSize limit and
passing the fileFilter.  The fileSize limit is applied per file; multer has
no limit on the combined size of a call. -/
def multerAccepts (files : List UploadFile) : Bool :=
  files.length ≤ 50 &&
    files.all (fun f => f.size ≤ 100 * 1024 * 1024 && fileFilterAccepts f.originalname)

/-! ## routes/analysis.js -/

/-- A file descriptor in the body of POST /analysis/analyze. -/
structure AnalyzeFile where
  filename : String
  deriving DecidableEq, Repr

structure AnalyzeBody where
  projectId : Option Nat
  files : Option (List AnalyzeFile)
  deriving DecidableEq, Repr

/-- GET /analysis/:id: join to projects and require p.user_id = caller. -/
def ownsProject (s : Store) (pid uid : Nat) : Bool :=
  s.projects.any (fun p => p.id == pid && p.user_id == uid)

def analysisGetById (s : Store) (uid aid : Nat) : Rsp CodeAnalysis :=
  match s.code_analyses.find?
      (fun a => a.id == aid && ownsProject s a.project_id uid) with
  | none => .err 404 "Analysis not found"
  | some a => .ok 200 a

/-- The insert loop of POST /analysis/analyze: one code_analyses row per
file with status 'pending', collecting the generated ids in order. -/
def insertPendingAnalyses (rows : List CodeAnalysis) (pid : Nat) :
    List AnalyzeFile → List CodeAnalysis × List Nat
  | [] => (rows, [])
  | f :: fs =>
    let aid := freshNat (rows.map (·.id))
    let row : CodeAnalysis :=
      { id := aid, project_id := pid, file_path := f.filename,
        language := none, framework := none, dependencies := none,
        requirements := none, analysis_results := none, status := "pending" }
    let rest := insertPendingAnalyses (rows ++ [row]) pid fs
    (rest.1, aid :: rest.2)

/-- UPDATE code_analyses SET status = 'failed' WHERE id = ANY($2), for the
just-generated ids. -/
def markAnalysesFailed (rows : List CodeAnalysis) (ids : List Nat) :
    List CodeAnalysis :=
  rows.map (fun a => if ids.contains a.id then { a with status := "failed" } else a)

/-- POST /analysis/analyze: validate the body, check project ownership,
insert one pending row per file, then make the single outbound call to the
code analysis service; on outbound failure mark all created rows 'failed'
(UPDATE ... WHERE id = ANY($2)) and answer 503. -/
def analysisAnalyze (s : Store) (u : AuthedUser) (b : AnalyzeBody)
    (svc : Except Unit Unit) : Store × Rsp (List Nat) :=
  match b.projectId, b.files with
  | none, _ => (s, .err 400 "Project ID and files required")
  | some _, none => (s, .err 400 "Project ID and files required")
  | some pid, some files =>
    if files.isEmpty then (s, .err 400 "Project ID and files required")
    else if !ownsProject s pid u.id then (s, .err 404 "Project not found")
    else
      let inserted := insertPendingAnalyses s.code_analyses pid files
      match svc with
      | .ok _ => ({ s with code_analyses := inserted.1 }, .ok 200 inserted.2)
      | .error _ =>
        ({ s with code_analyses := markAnalysesFailed inserted.1 inserted.2 },
         .err 503 "Analysis service unavailable")

/-! ## routes/templates.js (templates router) -/

structure GenerateBody where
  projectId : Option Nat
  templateType : Option String
  optimizationLevel : Option String
  deriving DecidableEq, Repr

/-- Response body of the infrastructure generation service call. -/
structure GenServiceResp where
  template : String
  estimatedCost : Int
  resources : String
  optimizationSuggestions : String
  deriving DecidableEq, Repr

/-- A value as the pg driver delivers it to the handler: PostgreSQL bigint
columns - COUNT(*) results among them - arrive as strings, not numbers
(this repository's analysis.js wraps its own counts in parseInt for that
reason). -/
inductive JsValue where
  | str (s : String)
  | num (n : Nat)
  deriving DecidableEq, Repr

/-- JavaScript strict equality (===): operands of different runtime types
are never equal and no coercion is performed. -/
def jsStrictEq : JsValue → JsValue → Bool
  | .str a, .str b => a == b
  | .num a, .num b => a == b
  | _, _ => false

/-- POST /templates/generate: require projectId and check project
ownership; then destructure { total, completed } from the COUNT query -
the pg driver delivers both bigint counts as strings - and compare each
against the number 0 with ===, as the source does.  A string is never
strictly equal to a number, so both 400 precondition branches are dead and
the handler always proceeds to the generation-service call for an owned
project; on service failure it answers 503 with no insert, and on success
it inserts the returned template as a new row. -/
def templatesGenerate (s : Store) (u : AuthedUser) (b : GenerateBody)
    (svc : Except Unit GenServiceResp) : Store × Rsp InfrastructureTemplate :=
  match b.projectId with
  | none => (s, .err 400 "Project ID required")
  | some pid =>
    if !ownsProject s pid u.id then (s, .err 404 "Project not found")
    else
      let total : JsValue :=
        .str (toString (s.code_analyses.filter (fun a => a.project_id == pid)).length)
      let completed : JsValue :=
        .str (toString (s.code_analyses.filter
          (fun a => a.project_id == pid && a.status == "completed")).length)
      if jsStrictEq total (.num 0) then
        (s, .err 400 "No code analysis found. Please upload and analyze code first.")
      else if jsStrictEq completed (.num 0) then
        (s, .err 400 "Code analysis not completed yet. Please wait for analysis to finish.")
      else
        match svc with
        | .error _ => (s, .err 503 "Infrastructure generation service unavailable")
        | .ok r =>
          let t : InfrastructureTemplate :=
            { id := freshNat (s.infrastructure_templates.map (·.id)),
              project_id := pid,
              template_type := b.templateType.getD "terraform",
              template_content := r.template,
              estimated_cost := r.estimatedCost,
              resources := r.resources,
              optimization_suggestions := r.optimizationSuggestions }
          ({ s with infrastructure_templates := s.infrastructure_templates ++ [t] },
           .ok 200 t)

/-- The ownership join shared by the template-by-id routes:
SELECT it.* FROM infrastructure_templates it JOIN projects p ON
it.project_id = p.id WHERE it.id = $1 AND p.user_id = $2. -/
def findOwnedTemplate (s : Store) (tid uid : Nat) : Option InfrastructureTemplate :=
  s.infrastructure_templates.find?
    (fun t => t.id == tid && ownsProject s t.project_id uid)

def templatesGetById (s : Store) (uid tid : Nat) : Rsp InfrastructureTemplate :=
  match findOwnedTemplate s tid uid with
  | none => .err 404 "Template not found"
  | some t => .ok 200 t

/-- Response body of the optimization service call. -/
structure OptServiceResp where
  optimizedTemplate : String
  estimatedCost : Int
  optimizationSuggestions : String
  deriving DecidableEq, Repr

/-- The JSON object POST /templates/:id/optimize answers with on success. -/
structure OptimizeResponse where
  message : String
  originalCost : Int
  optimizedCost : Int
  savings : Int
  template : InfrastructureTemplate
  deriving DecidableEq, Repr

/-- The full template rows carried by an optimize response body: the source
response object holds exactly one row value, under its template key (the
original row is represented only by its estimated_cost figure). -/
def OptimizeResponse.rows (r : OptimizeResponse) : List InfrastructureTemplate :=
  [r.template]

/-- POST /templates/:id/optimize, behind checkSubscription('pro'): fetch
the template ownership-checked, call the optimization service, and on
success insert the optimized result as a new row (the original row is
never updated) and answer with both costs and their difference. -/
def templatesOptimize (s : Store) (u : AuthedUser) (tid : Nat)
    (svc : Except Unit OptServiceResp) : Store × Rsp OptimizeResponse :=
  match checkSubscription "pro" u.subscription_tier with
  | .reject _ _ => (s, .err 403 "Subscription upgrade required")
  | .pass =>
    match findOwnedTemplate s tid u.id with
    | none => (s, .err 404 "Template not found")
    | some t =>
      match svc with
      | .error _ => (s, .err 503 "Optimization service unavailable")
      | .ok r =>
        let nt : InfrastructureTemplate :=
          { id := freshNat (s.infrastructure_templates.map (·.id)),
            project_id := t.project_id,
            template_type := t.template_type,
            template_content := r.optimizedTemplate,
            estimated_cost := r.estimatedCost,
            resources := t.resources,
            optimization_suggestions := r.optimizationSuggestions }
        ({ s with infrastructure_templates := s.infrastructure_templates ++ [nt] },
         .ok 200 { message := "Template optimized successfully",
                   originalCost := t.estimated_cost,
                   optimizedCost := r.estimatedCost,
                   savings := t.estimated_cost - r.estimatedCost,
                   template := nt })

/-! ## routes/templates.js (deployments router) -/

/-- The ownership join of the deployment-by-id routes: deployments joined
through infrastructure_templates to projects, p.user_id = caller. -/
def findOwnedDeployment (s : Store) (did uid : Nat) : Option Deployment :=
  s.deployments.find? (fun d => d.id == did &&
    s.infrastructure_templates.any
      (fun t => t.id == d.template_id && ownsProject s t.project_id uid))

def deploymentsGetById (s : Store) (uid did : Nat) : Rsp Deployment :=
  match findOwnedDeployment s did uid with
  | none => .err 404 "Deployment not found"
  | some d => .ok 200 d

structure DeployBody where
  templateId : Option Nat
  region : Option String
  deriving DecidableEq, Repr

/-- UPDATE deployments SET status = 'failed', error_message = $2
WHERE id = $3, for the just-inserted row. -/
def markDeploymentFailed (ds : List Deployment) (did : Nat) : List Deployment :=
  ds.map (fun x =>
    if x.id == did then
      { x with status := "failed",
               error_message := some "Deployment service unavailable" }
    else x)

/-- UPDATE deployments SET status = $1 WHERE id = $2. -/
def setDeploymentStatus (ds : List Deployment) (did : Nat) (st : String) :
    List Deployment :=
  ds.map (fun x => if x.id == did then { x with status := st } else x)

/-- POST /deployments/deploy, behind checkSubscription('starter'): require
templateId, verify template ownership, INSERT the deployment row with
status 'pending' before the outbound call, then call the deployment
service; on failure UPDATE that row to 'failed' with the fixed error
message and answer 503. -/
def deploymentsDeploy (s : Store) (u : AuthedUser) (b : DeployBody)
    (svc : Except Unit Unit) : Store × Rsp Deployment :=
  match checkSubscription "starter" u.subscription_tier with
  | .reject _ _ => (s, .err 403 "Subscription upgrade required")
  | .pass =>
    match b.templateId with
    | none => (s, .err 400 "Template ID required")
    | some tid =>
      match findOwnedTemplate s tid u.id with
      | none => (s, .err 404 "Template not found")
      | some _ =>
        let did := freshNat (s.deployments.map (·.id))
        let d : Deployment :=
          { id := did, template_id := tid, status := "pending",
            deployment_url := none, terraform_state_url := none,
            logs := none, error_message := none }
        let s1 := { s with deployments := s.deployments ++ [d] }
        match svc with
        | .ok _ => (s1, .ok 200 d)
        | .error _ =>
          ({ s1 with deployments := markDeploymentFailed s1.deployments did },
           .err 503 "Deployment service unavailable")

/-- POST /deployments/:id/cancel: fetch the deployment ownership-checked;
a status other than 'pending' or 'running' is rejected with 400; otherwise
call the deployment service and on success UPDATE the status to
'cancelled'. -/
def deploymentsCancel (s : Store) (uid did : Nat) (svc : Except Unit Unit) :
    Store × Rsp String :=
  match findOwnedDeployment s did uid with
  | none => (s, .err 404 "Deployment not found")
  | some d =>
    if d.status ≠ "pending" ∧ d.status ≠ "running" then
      (s, .err 400 "Cannot cancel deployment in current status")
    else
      match svc with
      | .error _ => (s, .err 503 "Failed to cancel deployment")
      | .ok _ =>
        ({ s with deployments := setDeploymentStatus s.deployments did "cancelled" },
         .ok 200 "Deployment cancelled successfully")

/-- POST /deployments/:id/destroy, behind checkSubscription('starter'):
fetch the deployment ownership-checked; a status other than 'completed' is
rejected with 400; otherwise call the deployment service and on success
UPDATE the status to 'destroying'. -/
def deploymentsDestroy (s : Store) (u : AuthedUser) (did : Nat)
    (svc : Except Unit Unit) : Store × Rsp String :=
  match checkSubscription "starter" u.subscription_tier with
  | .reject _ _ => (s, .err 403 "Subscription upgrade required")
  | .pass =>
    match findOwnedDeployment s did u.id with
    | none => (s, .err 404 "Deployment not found")
    | some d =>
      if d.status ≠ "completed" then
        (s, .err 400 "Can only destroy completed deployments")
      else
        match svc with
        | .error _ => (s, .err 503 "Failed to start destruction")
        | .ok _ =>
          ({ s with deployments := setDeploymentStatus s.deployments did "destroying" },
           .ok 200 "Infrastructure destruction started")

/-! ## Theorems -/

/-- C10: a user whose subscription_tier is not one of the four known tiers
passes every checkSubscription gate: the looked-up current level is
undefined, the JavaScript < comparison against it is false, and the
middleware calls next() instead of rejecting, whatever the required tier. -/
theorem checkSubscription_unknown_tier_passes (userTier requiredTier : String)
    (h : tierLevels userTier = none) :
    checkSubscription requiredTier userTier = Gate.pass := by
  unfold checkSubscription
  cases hr : tierLevels requiredTier <;> simp [jsLt, h, hr]

theorem checkSubscription_unknown_tier_passes_witness :
    tierLevels "platinum" = none ∧
    checkSubscription "pro" "platinum" = Gate.pass :=
  ⟨by decide, checkSubscription_unknown_tier_passes "platinum" "pro" (by decide)⟩

/-- C8: authentication distinguishes three failures - no bearer token is
401 "Access token required"; a token jwt.verify throws on (malformed or
expired) is 403 "Invalid or expired token"; a token that verifies but
whose subject has no user row is 401 "Invalid token", so a deleted user
cannot act on a still-valid credential - the three error responses are
pairwise distinct, and on success the resolved
{id, email, subscription_tier} projection is attached. -/
theorem authenticateToken_spec (users : List User) :
    (authenticateToken users none = AuthResult.failure 401 "Access token required") ∧
    (∀ raw, authenticateToken users (some (Token.malformed raw)) =
        AuthResult.failure 403 "Invalid or expired token") ∧
    (∀ uid, users.find? (fun u => u.id == uid) = none →
        authenticateToken users (some (Token.signed uid)) =
          AuthResult.failure 401 "Invalid token") ∧
    (∀ uid u, users.find? (fun v => v.id == uid) = some u →
        authenticateToken users (some (Token.signed uid)) =
          AuthResult.success { id := u.id, email := u.email,
                               subscription_tier := u.subscription_tier }) ∧
    (AuthResult.failure 401 "Access token required" ≠
        AuthResult.failure 403 "Invalid or expired token" ∧
      AuthResult.failure 401 "Access token required" ≠
        AuthResult.failure 401 "Invalid token" ∧
      AuthResult.failure 403 "Invalid or expired token" ≠
        AuthResult.failure 401 "Invalid token") := by
  refine ⟨rfl, fun raw => rfl, ?_, ?_, by decide⟩
  · intro uid h
    simp [authenticateToken, h]
  · intro uid u h
    simp [authenticateToken, h]

theorem authenticateToken_spec_witness :
    List.find? (fun v => v.id == 7)
        ([{ id := 1, email := "a@x", password_hash := "h",
            subscription_tier := "free", api_key := none }] : List User) = none ∧
    authenticateToken
        [{ id := 1, email := "a@x", password_hash := "h",
           subscription_tier := "free", api_key := none }]
        (some (Token.signed 7)) = AuthResult.failure 401 "Invalid token" :=
  ⟨by decide,
   (authenticateToken_spec
      [{ id := 1, email := "a@x", password_hash := "h",
         subscription_tier := "free", api_key := none }]).2.2.1 7 (by decide)⟩

/-- C9 counterexample: the multer fileSize limit is applied per file, not
to the call's combined size - a call with two 60MB .js files, 120MB in
total, is accepted even though 120MB exceeds 100MB. -/
theorem multer_total_size_counterexample :
    multerAccepts [{ originalname := "a.js", size := 60 * 1024 * 1024 },
                   { originalname := "b.js", size := 60 * 1024 * 1024 }] = true ∧
    100 * 1024 * 1024 < 60 * 1024 * 1024 + 60 * 1024 * 1024 := by
  exact ⟨by decide, by decide⟩

/-- C9 (amended): the upload endpoint rejects any call containing a file
larger than 100MB (a per-file limit, not a bound on the call's combined
size), and rejects any call containing a file whose name does not end in
one of the allow-listed extensions. -/
theorem multer_per_file_limits (files : List UploadFile) :
    (∀ f ∈ files, 100 * 1024 * 1024 < f.size → multerAccepts files = false) ∧
    (∀ f ∈ files, fileFilterAccepts f.originalname = false →
        multerAccepts files = false) := by
  constructor
  · intro f hf hbad
    cases hall : files.all
        (fun g => g.size ≤ 100 * 1024 * 1024 && fileFilterAccepts g.originalname) with
    | false => simp [multerAccepts, hall]
    | true =>
      have h1 := List.all_eq_true.mp hall f hf
      simp only [Bool.and_eq_true, decide_eq_true_eq] at h1
      exact absurd h1.1 (Nat.not_le.mpr hbad)
  · intro f hf hbad
    cases hall : files.all
        (fun g => g.size ≤ 100 * 1024 * 1024 && fileFilterAccepts g.originalname) with
    | false => simp [multerAccepts, hall]
    | true =>
      have h1 := List.all_eq_true.mp hall f hf
      simp only [Bool.and_eq_true, decide_eq_true_eq] at h1
      rw [hbad] at h1
      exact absurd h1.2 (by simp)

theorem multer_per_file_limits_witness :
    multerAccepts [{ originalname := "huge.js", size := 200 * 1024 * 1024 }] = false ∧
    multerAccepts [{ originalname := "evil.exe", size := 10 }] = false :=
  ⟨(multer_per_file_limits _).1
      { originalname := "huge.js", size := 200 * 1024 * 1024 } (by decide) (by decide),
   (multer_per_file_limits _).2
      { originalname := "evil.exe", size := 10 } (by decide) (by decide)⟩

/-- The row POST /projects inserts when the quota gate lets it through. -/
def createdProject (s : Store) (u : AuthedUser) (b : ProjectBody) (nm : String) :
    Project :=
  { id := freshNat (s.projects.map (·.id)), user_id := u.id, name := nm,
    description := b.description, repository_url := b.repository_url,
    language := b.language, framework := b.framework, status := "active" }

theorem projectsCreate_ok_of_gate_false (s : Store) (u : AuthedUser)
    (b : ProjectBody) (nm : String) (hnm : b.name = some nm) (hne : nm ≠ "")
    (h : jsGe ((s.projects.filter (fun p => p.user_id == u.id)).length)
          (projectLimits u.subscription_tier) = false) :
    projectsCreate s u b =
      ({ s with projects := s.projects ++ [createdProject s u b nm] },
       .ok 201 (createdProject s u b nm)) := by
  simp [projectsCreate, hnm, hne, h, createdProject]

theorem projectsCreate_err_of_gate_true (s : Store) (u : AuthedUser)
    (b : ProjectBody) (nm : String) (hnm : b.name = some nm) (hne : nm ≠ "")
    (h : jsGe ((s.projects.filter (fun p => p.user_id == u.id)).length)
          (projectLimits u.subscription_tier) = true) :
    projectsCreate s u b =
      (s, .err 403 "Project limit reached for your subscription tier") := by
  simp [projectsCreate, hnm, hne, h]

/-- C6: project creation quota per subscription tier - a free user with
fewer than 5 projects (in particular 4, creating the 5th) succeeds and with
5 or more (in particular 5, creating the 6th) is rejected with the
tier-limit error; a starter user is bounded by 20 the same way; a pro or
enterprise user is never rejected by the quota, whatever their count. -/
theorem projectsCreate_tier_quota (s : Store) (u : AuthedUser) (b : ProjectBody)
    (nm : String) (hnm : b.name = some nm) (hne : nm ≠ "") :
    (u.subscription_tier = "free" →
      ((s.projects.filter (fun p => p.user_id == u.id)).length < 5 →
        projectsCreate s u b =
          ({ s with projects := s.projects ++ [createdProject s u b nm] },
           .ok 201 (createdProject s u b nm))) ∧
      (5 ≤ (s.projects.filter (fun p => p.user_id == u.id)).length →
        projectsCreate s u b =
          (s, .err 403 "Project limit reached for your subscription tier"))) ∧
    (u.subscription_tier = "starter" →
      ((s.projects.filter (fun p => p.user_id == u.id)).length < 20 →
        projectsCreate s u b =
          ({ s with projects := s.projects ++ [createdProject s u b nm] },
           .ok 201 (createdProject s u b nm))) ∧
      (20 ≤ (s.projects.filter (fun p => p.user_id == u.id)).length →
        projectsCreate s u b =
          (s, .err 403 "Project limit reached for your subscription tier"))) ∧
    ((u.subscription_tier = "pro" ∨ u.subscription_tier = "enterprise") →
      projectsCreate s u b =
        ({ s with projects := s.projects ++ [createdProject s u b nm] },
         .ok 201 (createdProject s u b nm))) := by
  refine ⟨fun ht => ⟨fun hc => ?_, fun hc => ?_⟩,
          fun ht => ⟨fun hc => ?_, fun hc => ?_⟩, fun ht => ?_⟩
  · exact projectsCreate_ok_of_gate_false s u b nm hnm hne
      (by simp [ht, projectLimits, jsGe]; omega)
  · exact projectsCreate_err_of_gate_true s u b nm hnm hne
      (by simp [ht, projectLimits, jsGe]; omega)
  · exact projectsCreate_ok_of_gate_false s u b nm hnm hne
      (by simp [ht, projectLimits, jsGe]; omega)
  · exact projectsCreate_err_of_gate_true s u b nm hnm hne
      (by simp [ht, projectLimits, jsGe]; omega)
  · rcases ht with ht | ht <;>
      exact projectsCreate_ok_of_gate_false s u b nm hnm hne
        (by simp [ht, projectLimits, jsGe])

theorem projectsCreate_tier_quota_witness :
    projectsCreate
      { users := [], projects :=
          [{ id := 1, user_id := 1, name := "p1", description := none,
             repository_url := none, language := none, framework := none,
             status := "active" },
           { id := 2, user_id := 1, name := "p2", description := none,
             repository_url := none, language := none, framework := none,
             status := "active" },
           { id := 3, user_id := 1, name := "p3", description := none,
             repository_url := none, language := none, framework := none,
             status := "active" },
           { id := 4, user_id := 1, name := "p4", description := none,
             repository_url := none, language := none, framework := none,
             status := "active" }],
        code_analyses := [], infrastructure_templates := [], deployments := [] }
      { id := 1, email := "a@x", subscription_tier := "free" }
      { name := some "p5", description := none, repository_url := none,
        language := none, framework := none } =
      ({ users := [], projects :=
          [{ id := 1, user_id := 1, name := "p1", description := none,
             repository_url := none, language := none, framework := none,
             status := "active" },
           { id := 2, user_id := 1, name := "p2", description := none,
             repository_url := none, language := none, framework := none,
             status := "active" },
           { id := 3, user_id := 1, name := "p3", description := none,
             repository_url := none, language := none, framework := none,
             status := "active" },
           { id := 4, user_id := 1, name := "p4", description := none,
             repository_url := none, language := none, framework := none,
             status := "active" },
           { id := 5, user_id := 1, name := "p5", description := none,
             repository_url := none, language := none, framework := none,
             status := "active" }],
         code_analyses := [], infrastructure_templates := [], deployments := [] },
       .ok 201 { id := 5, user_id := 1, name := "p5", description := none,
                 repository_url := none, language := none, framework := none,
                 status := "active" }) ∧
    projectsCreate
      { users := [], projects :=
          [{ id := 1, user_id := 1, name := "p1", description := none,
             repository_url := none, language := none, framework := none,
             status := "active" },
           { id := 2, user_id := 1, name := "p2", description := none,
             repository_url := none, language := none, framework := none,
             status := "active" },
           { id := 3, user_id := 1, name := "p3", description := none,
             repository_url := none, language := none, framework := none,
             status := "active" },
           { id := 4, user_id := 1, name := "p4", description := none,
             repository_url := none, language := none, framework := none,
             status := "active" },
           { id := 5, user_id := 1, name := "p5", description := none,
             repository_url := none, language := none, framework := none,
             status := "active" }],
        code_analyses := [], infrastructure_templates := [], deployments := [] }
      { id := 1, email := "a@x", subscription_tier := "free" }
      { name := some "p6", description := none, repository_url := none,
        language := none, framework := none } =
      ({ users := [], projects :=
          [{ id := 1, user_id := 1, name := "p1", description := none,
             repository_url := none, language := none, framework := none,
             status := "active" },
           { id := 2, user_id := 1, name := "p2", description := none,
             repository_url := none, language := none, framework := none,
             status := "active" },
           { id := 3, user_id := 1, name := "p3", description := none,
             repository_url := none, language := none, framework := none,
             status := "active" },
           { id := 4, user_id := 1, name := "p4", description := none,
             repository_url := none, language := none, framework := none,
             status := "active" },
           { id := 5, user_id := 1, name := "p5", description := none,
             repository_url := none, language := none, framework := none,
             status := "active" }],
         code_analyses := [], infrastructure_templates := [], deployments := [] },
       .err 403 "Project limit reached for your subscription tier") := by
  constructor
  · exact (((projectsCreate_tier_quota _ _ _ "p5" rfl (by decide)).1 rfl).1
      (by decide)).trans (by decide)
  · exact ((projectsCreate_tier_quota _ _ _ "p6" rfl (by decide)).1 rfl).2 (by decide)

/-- The row POST /templates/generate inserts from the generation service's
response. -/
def generatedTemplate (s : Store) (b : GenerateBody) (pid : Nat)
    (r : GenServiceResp) : InfrastructureTemplate :=
  { id := freshNat (s.infrastructure_templates.map (·.id)), project_id := pid,
    template_type := b.templateType.getD "terraform",
    template_content := r.template, estimated_cost := r.estimatedCost,
    resources := r.resources,
    optimization_suggestions := r.optimizationSuggestions }

theorem jsStrictEq_str_num (s : String) (n : Nat) :
    jsStrictEq (.str s) (.num n) = false := rfl

theorem templatesGenerate_reaches_service (s : Store) (u : AuthedUser)
    (b : GenerateBody) (svc : Except Unit GenServiceResp) (pid : Nat)
    (hpid : b.projectId = some pid) (hown : ownsProject s pid u.id = true) :
    templatesGenerate s u b svc =
      match svc with
      | .error _ => (s, .err 503 "Infrastructure generation service unavailable")
      | .ok r =>
        ({ s with infrastructure_templates :=
            s.infrastructure_templates ++ [generatedTemplate s b pid r] },
         .ok 200 (generatedTemplate s b pid r)) := by
  cases svc with
  | error e => simp [templatesGenerate, hpid, hown, jsStrictEq_str_num]
  | ok r => simp [templatesGenerate, hpid, hown, jsStrictEq_str_num, generatedTemplate]

/-- C2: refuted on the code - templates.js destructures { total, completed }
from a COUNT query, and the pg driver delivers bigint counts as strings, so
the strict comparisons total === 0 and completed === 0 are always false and
both 400 precondition branches are dead (this repository's own
analysis.js:160-163 wraps such counts in parseInt).  At a concrete owned
project with zero code_analyses rows the handler does not answer
"No code analysis found..." but reaches the generation service and relays
its 503 failure; with one pending and no completed analysis it does not
answer "Code analysis not completed yet..." but persists the service's
successful response. -/
theorem templatesGenerate_dead_precondition_checks :
    templatesGenerate
      { users := [], projects :=
          [{ id := 1, user_id := 1, name := "p", description := none,
             repository_url := none, language := none, framework := none,
             status := "active" }],
        code_analyses := [], infrastructure_templates := [], deployments := [] }
      { id := 1, email := "a@x", subscription_tier := "free" }
      { projectId := some 1, templateType := none, optimizationLevel := none }
      (.error ()) =
      ({ users := [], projects :=
           [{ id := 1, user_id := 1, name := "p", description := none,
              repository_url := none, language := none, framework := none,
              status := "active" }],
         code_analyses := [], infrastructure_templates := [], deployments := [] },
       .err 503 "Infrastructure generation service unavailable") ∧
    templatesGenerate
      { users := [], projects :=
          [{ id := 1, user_id := 1, name := "p", description := none,
             repository_url := none, language := none, framework := none,
             status := "active" }],
        code_analyses :=
          [{ id := 1, project_id := 1, file_path := "a.js", language := none,
             framework := none, dependencies := none, requirements := none,
             analysis_results := none, status := "pending" }],
        infrastructure_templates := [], deployments := [] }
      { id := 1, email := "a@x", subscription_tier := "free" }
      { projectId := some 1, templateType := none, optimizationLevel := none }
      (.ok { template := "t", estimatedCost := 10, resources := "r",
             optimizationSuggestions := "o" }) =
      ({ users := [], projects :=
           [{ id := 1, user_id := 1, name := "p", description := none,
              repository_url := none, language := none, framework := none,
              status := "active" }],
         code_analyses :=
           [{ id := 1, project_id := 1, file_path := "a.js", language := none,
              framework := none, dependencies := none, requirements := none,
              analysis_results := none, status := "pending" }],
         infrastructure_templates :=
           [{ id := 1, project_id := 1, template_type := "terraform",
              template_content := "t", estimated_cost := 10, resources := "r",
              optimization_suggestions := "o" }],
         deployments := [] },
       .ok 200 { id := 1, project_id := 1, template_type := "terraform",
                 template_content := "t", estimated_cost := 10, resources := "r",
                 optimization_suggestions := "o" }) := by
  exact ⟨by decide, by decide⟩

/-- C7: when the generation service call fails, generate-template leaves
the infrastructure_templates table exactly as it was (in fact the whole
store), and for an owned project - which, the dead precondition branches
never firing, always reaches the call - answers the downstream-unavailable
503 error. -/
theorem templatesGenerate_failure_persists_nothing (s : Store) (u : AuthedUser)
    (b : GenerateBody) (e : Unit) :
    ((templatesGenerate s u b (.error e)).1 = s) ∧
    (∀ pid, b.projectId = some pid → ownsProject s pid u.id = true →
      templatesGenerate s u b (.error e) =
        (s, .err 503 "Infrastructure generation service unavailable")) := by
  constructor
  · unfold templatesGenerate
    cases hb : b.projectId with
    | none => rfl
    | some pid =>
      by_cases hown : ownsProject s pid u.id
      · simp only [hown, Bool.not_true, Bool.false_eq_true, if_false]
        split
        · rfl
        · split <;> rfl
      · simp only [Bool.not_eq_true] at hown
        simp [hown]
  · intro pid hpid hown
    exact templatesGenerate_reaches_service s u b _ pid hpid hown

theorem templatesGenerate_failure_persists_nothing_witness :
    templatesGenerate
      { users := [], projects :=
          [{ id := 1, user_id := 1, name := "p", description := none,
             repository_url := none, language := none, framework := none,
             status := "active" }],
        code_analyses :=
          [{ id := 1, project_id := 1, file_path := "a.js", language := none,
             framework := none, dependencies := none, requirements := none,
             analysis_results := none, status := "completed" }],
        infrastructure_templates := [], deployments := [] }
      { id := 1, email := "a@x", subscription_tier := "free" }
      { projectId := some 1, templateType := none, optimizationLevel := none }
      (.error ()) =
      ({ users := [], projects :=
           [{ id := 1, user_id := 1, name := "p", description := none,
              repository_url := none, language := none, framework := none,
              status := "active" }],
         code_analyses :=
           [{ id := 1, project_id := 1, file_path := "a.js", language := none,
              framework := none, dependencies := none, requirements := none,
              analysis_results := none, status := "completed" }],
         infrastructure_templates := [], deployments := [] },
       .err 503 "Infrastructure generation service unavailable") :=
  (templatesGenerate_failure_persists_nothing _ _ _ ()).2 1 rfl (by decide)

/-- The row POST /templates/:id/optimize inserts from the optimization
service's response: new content and cost, the original's project, type and
resources. -/
def optimizedRow (s : Store) (t : InfrastructureTemplate) (r : OptServiceResp) :
    InfrastructureTemplate :=
  { id := freshNat (s.infrastructure_templates.map (·.id)),
    project_id := t.project_id, template_type := t.template_type,
    template_content := r.optimizedTemplate, estimated_cost := r.estimatedCost,
    resources := t.resources,
    optimization_suggestions := r.optimizationSuggestions }

/-- C4 (amended): a successful optimize of an owned template appends a new
template row whose id differs from the original's, leaves the whole
original table - in particular every field of the original row - in place,
and answers with savings equal to the original's estimated cost minus the
optimized cost, alongside the new record and the original's estimated cost
(the response does not carry the full original record). -/
theorem templatesOptimize_new_row_frame (s : Store) (u : AuthedUser) (tid : Nat)
    (r : OptServiceResp) (t : InfrastructureTemplate)
    (hgate : checkSubscription "pro" u.subscription_tier = Gate.pass)
    (hfind : findOwnedTemplate s tid u.id = some t) :
    templatesOptimize s u tid (.ok r) =
      ({ s with infrastructure_templates :=
          s.infrastructure_templates ++ [optimizedRow s t r] },
       .ok 200 { message := "Template optimized successfully",
                 originalCost := t.estimated_cost,
                 optimizedCost := r.estimatedCost,
                 savings := t.estimated_cost - r.estimatedCost,
                 template := optimizedRow s t r }) ∧
    (optimizedRow s t r).id ≠ t.id ∧
    t ∈ s.infrastructure_templates := by
  have hmem : t ∈ s.infrastructure_templates := List.mem_of_find?_eq_some hfind
  have hlt : t.id < freshNat (s.infrastructure_templates.map (·.id)) :=
    lt_freshNat (List.mem_map_of_mem _ hmem)
  refine ⟨?_, ?_, hmem⟩
  · simp [templatesOptimize, hgate, hfind, optimizedRow]
  · show freshNat (s.infrastructure_templates.map (·.id)) ≠ t.id
    omega

theorem templatesOptimize_new_row_frame_witness :
    templatesOptimize
      { users := [], projects :=
          [{ id := 1, user_id := 1, name := "p", description := none,
             repository_url := none, language := none, framework := none,
             status := "active" }],
        code_analyses := [],
        infrastructure_templates :=
          [{ id := 1, project_id := 1, template_type := "terraform",
             template_content := "orig", estimated_cost := 100,
             resources := "res", optimization_suggestions := "o1" }],
        deployments := [] }
      { id := 1, email := "a@x", subscription_tier := "pro" } 1
      (.ok { optimizedTemplate := "opt", estimatedCost := 60,
             optimizationSuggestions := "o2" }) =
      ({ users := [], projects :=
           [{ id := 1, user_id := 1, name := "p", description := none,
              repository_url := none, language := none, framework := none,
              status := "active" }],
         code_analyses := [],
         infrastructure_templates :=
           [{ id := 1, project_id := 1, template_type := "terraform",
              template_content := "orig", estimated_cost := 100,
              resources := "res", optimization_suggestions := "o1" },
            { id := 2, project_id := 1, template_type := "terraform",
              template_content := "opt", estimated_cost := 60,
              resources := "res", optimization_suggestions := "o2" }],
         deployments := [] },
       .ok 200 { message := "Template optimized successfully",
                 originalCost := 100, optimizedCost := 60, savings := 40,
                 template :=
                   { id := 2, project_id := 1, template_type := "terraform",
                     template_content := "opt", estimated_cost := 60,
                     resources := "res", optimization_suggestions := "o2" } }) :=
  ((templatesOptimize_new_row_frame _ _ 1 _
      { id := 1, project_id := 1, template_type := "terraform",
        template_content := "orig", estimated_cost := 100,
        resources := "res", optimization_suggestions := "o1" }
      (by decide) (by decide)).1).trans (by decide)

/-- C4 counterexample: on the claim's reading that the response carries
both records, the code disagrees - the optimize response object carries
exactly one full template row (the new one); at this concrete input the
operation succeeds yet the original row is not among the rows of the
response, which represents the original only by its estimated cost. -/
theorem templatesOptimize_both_rows_counterexample :
    (templatesOptimize
        { users := [], projects :=
            [{ id := 1, user_id := 1, name := "p", description := none,
               repository_url := none, language := none, framework := none,
               status := "active" }],
          code_analyses := [],
          infrastructure_templates :=
            [{ id := 1, project_id := 1, template_type := "terraform",
               template_content := "orig", estimated_cost := 100,
               resources := "res", optimization_suggestions := "o1" }],
          deployments := [] }
        { id := 1, email := "a@x", subscription_tier := "pro" } 1
        (.ok { optimizedTemplate := "opt", estimatedCost := 60,
               optimizationSuggestions := "o2" })).2 =
      .ok 200 { message := "Template optimized successfully",
                originalCost := 100, optimizedCost := 60, savings := 40,
                template :=
                  { id := 2, project_id := 1, template_type := "terraform",
                    template_content := "opt", estimated_cost := 60,
                    resources := "res", optimization_suggestions := "o2" } } ∧
    { id := 1, project_id := 1, template_type := "terraform",
      template_content := "orig", estimated_cost := 100,
      resources := "res",
      optimization_suggestions := "o1" : InfrastructureTemplate } ∉
      OptimizeResponse.rows
        { message := "Template optimized successfully",
          originalCost := 100, optimizedCost := 60, savings := 40,
          template :=
            { id := 2, project_id := 1, template_type := "terraform",
              template_content := "opt", estimated_cost := 60,
              resources := "res", optimization_suggestions := "o2" } } := by
  exact ⟨by decide, by decide⟩

theorem insertPendingAnalyses_spec (fs : List AnalyzeFile) :
    ∀ rows pid, ∃ created : List CodeAnalysis,
      (insertPendingAnalyses rows pid fs).1 = rows ++ created ∧
      (insertPendingAnalyses rows pid fs).2 = created.map (·.id) ∧
      created.length = fs.length := by
  induction fs with
  | nil =>
    intro rows pid
    exact ⟨[], by simp [insertPendingAnalyses]⟩
  | cons f fs ih =>
    intro rows pid
    obtain ⟨created, h1, h2, h3⟩ := ih
      (rows ++ [{ id := freshNat (rows.map (·.id)), project_id := pid,
                  file_path := f.filename, language := none, framework := none,
                  dependencies := none, requirements := none,
                  analysis_results := none, status := "pending" }]) pid
    refine ⟨{ id := freshNat (rows.map (·.id)), project_id := pid,
              file_path := f.filename, language := none, framework := none,
              dependencies := none, requirements := none,
              analysis_results := none, status := "pending" } :: created, ?_, ?_, ?_⟩
    · simp only [insertPendingAnalyses, h1, List.append_assoc, List.singleton_append]
    · simp only [insertPendingAnalyses, h2, List.map_cons]
    · simp [h3]

/-- C5: when the single outbound downstream call fails, the handler makes
its compensating local write before answering and the caller gets the
service-unavailable 503, not a generic error - trigger-analysis leaves
every code_analyses row either as it was or marked 'failed' (the rows it
just created are exactly the ones not previously present, and all of them
are created and then marked), and deploy, having inserted the pending row
before the call, has a row for the template in the final store with status
'failed' and the fixed error message. -/
theorem downstream_failure_compensating_writes (s : Store) (u : AuthedUser) :
    (∀ (b : AnalyzeBody) (pid : Nat) (files : List AnalyzeFile),
      b.projectId = some pid → b.files = some files → files.isEmpty = false →
      ownsProject s pid u.id = true →
      ((analysisAnalyze s u b (.error ())).2 =
          .err 503 "Analysis service unavailable") ∧
      (∀ a ∈ (analysisAnalyze s u b (.error ())).1.code_analyses,
          a ∈ s.code_analyses ∨ a.status = "failed") ∧
      ((analysisAnalyze s u b (.error ())).1.code_analyses.length =
          s.code_analyses.length + files.length)) ∧
    (∀ (b : DeployBody) (tid : Nat) (t : InfrastructureTemplate),
      checkSubscription "starter" u.subscription_tier = Gate.pass →
      b.templateId = some tid → findOwnedTemplate s tid u.id = some t →
      ((deploymentsDeploy s u b (.error ())).2 =
          .err 503 "Deployment service unavailable") ∧
      (∃ d ∈ (deploymentsDeploy s u b (.error ())).1.deployments,
          d.template_id = tid ∧ d.status = "failed" ∧
          d.error_message = some "Deployment service unavailable")) := by
  constructor
  · intro b pid files hpid hfiles hne hown
    obtain ⟨created, h1, h2, h3⟩ := insertPendingAnalyses_spec files s.code_analyses pid
    have hrun : analysisAnalyze s u b (.error ()) =
        ({ s with code_analyses := markAnalysesFailed
                    (insertPendingAnalyses s.code_analyses pid files).1
                    (insertPendingAnalyses s.code_analyses pid files).2 },
         .err 503 "Analysis service unavailable") := by
      simp [analysisAnalyze, hpid, hfiles, hne, hown]
    refine ⟨by rw [hrun], ?_, ?_⟩
    · intro a ha
      rw [hrun] at ha
      simp only [markAnalysesFailed, List.mem_map] at ha
      obtain ⟨x, hx, hax⟩ := ha
      rw [h1] at hx
      rcases List.mem_append.mp hx with hx | hx
      · by_cases hc : (insertPendingAnalyses s.code_analyses pid files).2.contains x.id
        · right
          rw [← hax]
          have hcm := List.mem_of_elem_eq_true hc
          simp [hcm]
        · left
          rw [← hax]
          simp only [Bool.not_eq_true] at hc
          simp at hc
          simp [hc, hx]
      · right
        have hc : (insertPendingAnalyses s.code_analyses pid files).2.contains x.id = true := by
          rw [h2]
          exact List.elem_eq_true_of_mem (List.mem_map_of_mem _ hx)
        rw [← hax]
        have hcm := List.mem_of_elem_eq_true hc
        simp [hcm]
    · rw [hrun]
      simp [markAnalysesFailed, h1, h3]
  · intro b tid t hgate htid hfind
    have hrun : deploymentsDeploy s u b (.error ()) =
        ({ s with deployments := markDeploymentFailed
                    (s.deployments ++
                      [{ id := freshNat (s.deployments.map (·.id)),
                         template_id := tid, status := "pending",
                         deployment_url := none, terraform_state_url := none,
                         logs := none, error_message := none }])
                    (freshNat (s.deployments.map (·.id))) },
         .err 503 "Deployment service unavailable") := by
      simp [deploymentsDeploy, hgate, htid, hfind]
    refine ⟨by rw [hrun], ?_⟩
    rw [hrun]
    refine ⟨{ id := freshNat (s.deployments.map (·.id)), template_id := tid,
              status := "failed", deployment_url := none,
              terraform_state_url := none, logs := none,
              error_message := some "Deployment service unavailable" },
            ?_, rfl, rfl, rfl⟩
    simp only [markDeploymentFailed]
    refine List.mem_map.mpr
      ⟨{ id := freshNat (s.deployments.map (·.id)), template_id := tid,
         status := "pending", deployment_url := none,
         terraform_state_url := none, logs := none, error_message := none },
       by simp, by simp⟩

theorem downstream_failure_compensating_writes_witness :
    (analysisAnalyze
      { users := [], projects :=
          [{ id := 1, user_id := 1, name := "p", description := none,
             repository_url := none, language := none, framework := none,
             status := "active" }],
        code_analyses := [], infrastructure_templates := [], deployments := [] }
      { id := 1, email := "a@x", subscription_tier := "free" }
      { projectId := some 1, files := some [{ filename := "a.js" }] }
      (.error ())).2 = .err 503 "Analysis service unavailable" ∧
    (deploymentsDeploy
      { users := [], projects :=
          [{ id := 1, user_id := 1, name := "p", description := none,
             repository_url := none, language := none, framework := none,
             status := "active" }],
        code_analyses := [],
        infrastructure_templates :=
          [{ id := 1, project_id := 1, template_type := "terraform",
             template_content := "t", estimated_cost := 10, resources := "r",
             optimization_suggestions := "o" }],
        deployments := [] }
      { id := 1, email := "a@x", subscription_tier := "starter" }
      { templateId := some 1, region := none }
      (.error ())).2 = .err 503 "Deployment service unavailable" := by
  constructor
  · exact ((downstream_failure_compensating_writes _ _).1
      { projectId := some 1, files := some [{ filename := "a.js" }] }
      1 [{ filename := "a.js" }] rfl rfl (by decide) (by decide)).1
  · exact ((downstream_failure_compensating_writes _ _).2
      { templateId := some 1, region := none } 1
      { id := 1, project_id := 1, template_type := "terraform",
        template_content := "t", estimated_cost := 10, resources := "r",
        optimization_suggestions := "o" } (by decide) rfl (by decide)).1

theorem mem_setDeploymentStatus_of_ne (ds : List Deployment) (did : Nat)
    (st : String) {d : Deployment} (hd : d ∈ ds) (hne : d.id ≠ did) :
    d ∈ setDeploymentStatus ds did st := by
  have h := List.mem_map_of_mem
    (fun x : Deployment => if x.id == did then { x with status := st } else x) hd
  simpa [setDeploymentStatus, hne] using h

theorem mem_markDeploymentFailed_of_ne (ds : List Deployment) (did : Nat)
    {d : Deployment} (hd : d ∈ ds) (hne : d.id ≠ did) :
    d ∈ markDeploymentFailed ds did := by
  have h := List.mem_map_of_mem
    (fun x : Deployment =>
      if x.id == did then
        { x with status := "failed",
                 error_message := some "Deployment service unavailable" }
      else x) hd
  simpa [markDeploymentFailed, hne] using h

theorem findOwnedDeployment_id (s : Store) (did uid : Nat) {f : Deployment}
    (hf : findOwnedDeployment s did uid = some f) :
    f ∈ s.deployments ∧ f.id = did := by
  refine ⟨List.mem_of_find?_eq_some hf, ?_⟩
  have h := List.find?_some hf
  simp only [Bool.and_eq_true, beq_iff_eq] at h
  exact h.1

/-- C3: deployment lifecycle guards - cancel is accepted only from
'pending' or 'running' (anything else is rejected with the cannot-cancel
error, the store untouched), destroy is accepted only from 'completed'
(anything else rejected, the store untouched), and consequently no
deployment request - cancel, destroy or deploy, whatever its outcome -
ever removes or alters a deployment row sitting in the terminal states
'failed' or 'cancelled'. -/
theorem deployment_terminal_states (s : Store) (u : AuthedUser)
    (uid did : Nat) (svc : Except Unit Unit) :
    (∀ d, findOwnedDeployment s did uid = some d →
      d.status ≠ "pending" → d.status ≠ "running" →
      deploymentsCancel s uid did svc =
        (s, .err 400 "Cannot cancel deployment in current status")) ∧
    (∀ d, checkSubscription "starter" u.subscription_tier = Gate.pass →
      findOwnedDeployment s did u.id = some d → d.status ≠ "completed" →
      deploymentsDestroy s u did svc =
        (s, .err 400 "Can only destroy completed deployments")) ∧
    ((s.deployments.map (·.id)).Nodup →
      ∀ d ∈ s.deployments, d.status = "failed" ∨ d.status = "cancelled" →
        d ∈ (deploymentsCancel s uid did svc).1.deployments ∧
        d ∈ (deploymentsDestroy s u did svc).1.deployments ∧
        (∀ b, d ∈ (deploymentsDeploy s u b svc).1.deployments)) := by
  refine ⟨?_, ?_, ?_⟩
  · intro d hf h1 h2
    simp [deploymentsCancel, hf, h1, h2]
  · intro d hgate hf h1
    simp [deploymentsDestroy, hgate, hf, h1]
  · intro hnd d hd hterm
    have hstat : d.status ≠ "pending" ∧ d.status ≠ "running" ∧
        d.status ≠ "completed" := by
      rcases hterm with h | h <;> rw [h] <;> exact ⟨by decide, by decide, by decide⟩
    refine ⟨?_, ?_, ?_⟩
    · unfold deploymentsCancel
      cases hf : findOwnedDeployment s did uid with
      | none => exact hd
      | some f =>
        obtain ⟨hfm, hfid⟩ := findOwnedDeployment_id s did uid hf
        by_cases hguard : f.status ≠ "pending" ∧ f.status ≠ "running"
        · simp only [if_pos hguard]
          exact hd
        · have hne : d.id ≠ did := by
            intro hdid
            have : d = f := List.inj_on_of_nodup_map hnd hd hfm (by rw [hdid, hfid])
            rw [this] at hstat
            rcases not_and_or.mp hguard with h | h <;>
              [exact h hstat.1; exact h hstat.2.1]
          simp only [if_neg hguard]
          cases svc with
          | error e => exact hd
          | ok v => exact mem_setDeploymentStatus_of_ne s.deployments did "cancelled" hd hne
    · unfold deploymentsDestroy
      cases hgate : checkSubscription "starter" u.subscription_tier with
      | reject r c => exact hd
      | pass =>
        cases hf : findOwnedDeployment s did u.id with
        | none => exact hd
        | some f =>
          obtain ⟨hfm, hfid⟩ := findOwnedDeployment_id s did u.id hf
          by_cases hguard : f.status ≠ "completed"
          · simp only [if_pos hguard]
            exact hd
          · have hfc : f.status = "completed" := not_not.mp hguard
            have hne : d.id ≠ did := by
              intro hdid
              have : d = f := List.inj_on_of_nodup_map hnd hd hfm (by rw [hdid, hfid])
              rw [this, hfc] at hstat
              exact hstat.2.2 rfl
            simp only [if_neg hguard]
            cases svc with
            | error e => exact hd
            | ok v =>
              exact mem_setDeploymentStatus_of_ne s.deployments did "destroying" hd hne
    · intro b
      have hlt : d.id < freshNat (s.deployments.map (·.id)) :=
        lt_freshNat (List.mem_map_of_mem _ hd)
      cases hg : checkSubscription "starter" u.subscription_tier with
      | reject r c =>
        simp only [deploymentsDeploy, hg]
        exact hd
      | pass =>
        cases hb : b.templateId with
        | none =>
          simp only [deploymentsDeploy, hg, hb]
          exact hd
        | some tid =>
          cases hft : findOwnedTemplate s tid u.id with
          | none =>
            simp only [deploymentsDeploy, hg, hb, hft]
            exact hd
          | some t =>
            cases svc with
            | ok v =>
              simp only [deploymentsDeploy, hg, hb, hft]
              exact List.mem_append_left _ hd
            | error e =>
              simp only [deploymentsDeploy, hg, hb, hft]
              exact mem_markDeploymentFailed_of_ne _ _
                (List.mem_append_left _ hd) (Nat.ne_of_lt hlt)

theorem deployment_terminal_states_witness :
    deploymentsCancel
      { users := [], projects :=
          [{ id := 1, user_id := 1, name := "p", description := none,
             repository_url := none, language := none, framework := none,
             status := "active" }],
        code_analyses := [],
        infrastructure_templates :=
          [{ id := 1, project_id := 1, template_type := "terraform",
             template_content := "t", estimated_cost := 10, resources := "r",
             optimization_suggestions := "o" }],
        deployments :=
          [{ id := 1, template_id := 1, status := "completed",
             deployment_url := none, terraform_state_url := none,
             logs := none, error_message := none },
           { id := 2, template_id := 1, status := "failed",
             deployment_url := none, terraform_state_url := none,
             logs := none, error_message := none },
           { id := 3, template_id := 1, status := "running",
             deployment_url := none, terraform_state_url := none,
             logs := none, error_message := none }] }
      1 1 (.ok ()) =
      ({ users := [], projects :=
           [{ id := 1, user_id := 1, name := "p", description := none,
              repository_url := none, language := none, framework := none,
              status := "active" }],
         code_analyses := [],
         infrastructure_templates :=
           [{ id := 1, project_id := 1, template_type := "terraform",
              template_content := "t", estimated_cost := 10, resources := "r",
              optimization_suggestions := "o" }],
         deployments :=
           [{ id := 1, template_id := 1, status := "completed",
              deployment_url := none, terraform_state_url := none,
              logs := none, error_message := none },
            { id := 2, template_id := 1, status := "failed",
              deployment_url := none, terraform_state_url := none,
              logs := none, error_message := none },
            { id := 3, template_id := 1, status := "running",
              deployment_url := none, terraform_state_url := none,
              logs := none, error_message := none }] },
       .err 400 "Cannot cancel deployment in current status") ∧
    deploymentsDestroy
      { users := [], projects :=
          [{ id := 1, user_id := 1, name := "p", description := none,
             repository_url := none, language := none, framework := none,
             status := "active" }],
        code_analyses := [],
        infrastructure_templates :=
          [{ id := 1, project_id := 1, template_type := "terraform",
             template_content := "t", estimated_cost := 10, resources := "r",
             optimization_suggestions := "o" }],
        deployments :=
          [{ id := 1, template_id := 1, status := "completed",
             deployment_url := none, terraform_state_url := none,
             logs := none, error_message := none },
           { id := 2, template_id := 1, status := "failed",
             deployment_url := none, terraform_state_url := none,
             logs := none, error_message := none },
           { id := 3, template_id := 1, status := "running",
             deployment_url := none, terraform_state_url := none,
             logs := none, error_message := none }] }
      { id := 1, email := "a@x", subscription_tier := "starter" } 2 (.ok ()) =
      ({ users := [], projects :=
           [{ id := 1, user_id := 1, name := "p", description := none,
              repository_url := none, language := none, framework := none,
              status := "active" }],
         code_analyses := [],
         infrastructure_templates :=
           [{ id := 1, project_id := 1, template_type := "terraform",
              template_content := "t", estimated_cost := 10, resources := "r",
              optimization_suggestions := "o" }],
         deployments :=
           [{ id := 1, template_id := 1, status := "completed",
              deployment_url := none, terraform_state_url := none,
              logs := none, error_message := none },
            { id := 2, template_id := 1, status := "failed",
              deployment_url := none, terraform_state_url := none,
              logs := none, error_message := none },
            { id := 3, template_id := 1, status := "running",
              deployment_url := none, terraform_state_url := none,
              logs := none, error_message := none }] },
       .err 400 "Can only destroy completed deployments") ∧
    ({ id := 2, template_id := 1, status := "failed",
       deployment_url := none, terraform_state_url := none,
       logs := none, error_message := none } : Deployment) ∈
      (deploymentsCancel
        { users := [], projects :=
            [{ id := 1, user_id := 1, name := "p", description := none,
               repository_url := none, language := none, framework := none,
               status := "active" }],
          code_analyses := [],
          infrastructure_templates :=
            [{ id := 1, project_id := 1, template_type := "terraform",
               template_content := "t", estimated_cost := 10, resources := "r",
               optimization_suggestions := "o" }],
          deployments :=
            [{ id := 1, template_id := 1, status := "completed",
               deployment_url := none, terraform_state_url := none,
               logs := none, error_message := none },
             { id := 2, template_id := 1, status := "failed",
               deployment_url := none, terraform_state_url := none,
               logs := none, error_message := none },
             { id := 3, template_id := 1, status := "running",
               deployment_url := none, terraform_state_url := none,
               logs := none, error_message := none }] }
        1 3 (.ok ())).1.deployments := by
  refine ⟨?_, ?_, ?_⟩
  · exact (deployment_terminal_states _
      { id := 1, email := "a@x", subscription_tier := "starter" } 1 1 (.ok ())).1
      { id := 1, template_id := 1, status := "completed",
        deployment_url := none, terraform_state_url := none,
        logs := none, error_message := none }
      (by decide) (by decide) (by decide)
  · exact (deployment_terminal_states _
      { id := 1, email := "a@x", subscription_tier := "starter" } 2 2 (.ok ())).2.1
      { id := 2, template_id := 1, status := "failed",
        deployment_url := none, terraform_state_url := none,
        logs := none, error_message := none }
      (by decide) (by decide) (by decide)
  · exact ((deployment_terminal_states _
      { id := 1, email := "a@x", subscription_tier := "starter" } 1 3 (.ok ())).2.2
      (by decide)
      { id := 2, template_id := 1, status := "failed",
        deployment_url := none, terraform_state_url := none,
        logs := none, error_message := none }
      (by decide) (Or.inl rfl)).1

theorem no_owned_project_row (s : Store) (uid pid : Nat)
    (h : ∀ q ∈ s.projects, ¬(q.id = pid ∧ q.user_id = uid)) :
    (s.projects.find? (fun q => q.id == pid && q.user_id == uid) = none) ∧
    (s.projects.any (fun q => q.id == pid && q.user_id == uid) = false) := by
  constructor
  · rw [List.find?_eq_none]
    intro q hq
    simp only [Bool.and_eq_true, beq_iff_eq]
    exact h q hq
  · cases hany : s.projects.any (fun q => q.id == pid && q.user_id == uid) with
    | false => rfl
    | true =>
      obtain ⟨q, hq, hpred⟩ := List.any_eq_true.mp hany
      simp only [Bool.and_eq_true, beq_iff_eq] at hpred
      exact absurd hpred (h q hq)

theorem projects_ops_not_found (s : Store) (uid pid : Nat)
    (h : ∀ q ∈ s.projects, ¬(q.id = pid ∧ q.user_id = uid)) :
    projectsGetById s uid pid = .err 404 "Project not found" ∧
    (∀ b, projectsUpdate s uid pid b = (s, .err 404 "Project not found")) ∧
    projectsDelete s uid pid = (s, .err 404 "Project not found") := by
  obtain ⟨hfind, hany⟩ := no_owned_project_row s uid pid h
  refine ⟨?_, fun b => ?_, ?_⟩
  · simp [projectsGetById, hfind]
  · simp [projectsUpdate, hfind]
  · simp [projectsDelete, hany]

theorem analysisGetById_not_found (s : Store) (uid aid : Nat)
    (h : ∀ x ∈ s.code_analyses,
      ¬(x.id = aid ∧ ownsProject s x.project_id uid = true)) :
    analysisGetById s uid aid = .err 404 "Analysis not found" := by
  have hfind : s.code_analyses.find?
      (fun x => x.id == aid && ownsProject s x.project_id uid) = none := by
    rw [List.find?_eq_none]
    intro x hx
    simp only [Bool.and_eq_true, beq_iff_eq]
    exact h x hx
  simp [analysisGetById, hfind]

theorem templatesGetById_not_found (s : Store) (uid tid : Nat)
    (h : ∀ x ∈ s.infrastructure_templates,
      ¬(x.id = tid ∧ ownsProject s x.project_id uid = true)) :
    templatesGetById s uid tid = .err 404 "Template not found" := by
  have hfind : findOwnedTemplate s tid uid = none := by
    rw [findOwnedTemplate, List.find?_eq_none]
    intro x hx
    simp only [Bool.and_eq_true, beq_iff_eq]
    exact h x hx
  simp [templatesGetById, hfind]

theorem deploymentsGetById_not_found (s : Store) (uid did : Nat)
    (h : ∀ x ∈ s.deployments, ¬(x.id = did ∧
      s.infrastructure_templates.any
        (fun t => t.id == x.template_id && ownsProject s t.project_id uid) = true)) :
    deploymentsGetById s uid did = .err 404 "Deployment not found" := by
  have hfind : findOwnedDeployment s did uid = none := by
    rw [findOwnedDeployment, List.find?_eq_none]
    intro x hx
    simp only [Bool.and_eq_true, beq_iff_eq]
    exact h x hx
  simp [deploymentsGetById, hfind]

theorem ops_never_forbidden (s : Store) (uid pid : Nat) (b : ProjectBody) :
    (projectsGetById s uid pid).code ≠ 403 ∧
    ((projectsUpdate s uid pid b).2).code ≠ 403 ∧
    ((projectsDelete s uid pid).2).code ≠ 403 ∧
    (analysisGetById s uid pid).code ≠ 403 ∧
    (templatesGetById s uid pid).code ≠ 403 ∧
    (deploymentsGetById s uid pid).code ≠ 403 := by
  refine ⟨?_, ?_, ?_, ?_, ?_, ?_⟩
  · unfold projectsGetById
    cases s.projects.find? (fun p => p.id == pid && p.user_id == uid) <;>
      simp [Rsp.code]
  · unfold projectsUpdate
    cases s.projects.find? (fun p => p.id == pid && p.user_id == uid) <;>
      simp [Rsp.code]
  · unfold projectsDelete
    split <;> simp [Rsp.code]
  · unfold analysisGetById
    cases s.code_analyses.find?
        (fun a => a.id == pid && ownsProject s a.project_id uid) <;>
      simp [Rsp.code]
  · unfold templatesGetById
    cases findOwnedTemplate s pid uid <;> simp [Rsp.code]
  · unfold deploymentsGetById
    cases findOwnedDeployment s pid uid <;> simp [Rsp.code]

/-- C1: for an authenticated user, reading, updating or deleting a project
someone else owns - or reading an analysis, template or deployment whose
ownership chain does not lead to a project of the caller - produces the
very same 404 not-found response that a wholly nonexistent id produces;
none of these operations can tell the two apart and none ever answers a
403 forbidden response. -/
theorem ownership_hidden_as_not_found (s : Store) (uid : Nat) :
    ((s.projects.map (·.id)).Nodup →
      ∀ p ∈ s.projects, p.user_id ≠ uid →
        projectsGetById s uid p.id = .err 404 "Project not found" ∧
        (∀ b, projectsUpdate s uid p.id b = (s, .err 404 "Project not found")) ∧
        projectsDelete s uid p.id = (s, .err 404 "Project not found")) ∧
    (∀ pid, (∀ p ∈ s.projects, p.id ≠ pid) →
        projectsGetById s uid pid = .err 404 "Project not found" ∧
        (∀ b, projectsUpdate s uid pid b = (s, .err 404 "Project not found")) ∧
        projectsDelete s uid pid = (s, .err 404 "Project not found")) ∧
    ((s.code_analyses.map (·.id)).Nodup →
      ∀ a ∈ s.code_analyses, ownsProject s a.project_id uid = false →
        analysisGetById s uid a.id = .err 404 "Analysis not found") ∧
    (∀ aid, (∀ a ∈ s.code_analyses, a.id ≠ aid) →
        analysisGetById s uid aid = .err 404 "Analysis not found") ∧
    ((s.infrastructure_templates.map (·.id)).Nodup →
      ∀ t ∈ s.infrastructure_templates, ownsProject s t.project_id uid = false →
        templatesGetById s uid t.id = .err 404 "Template not found") ∧
    (∀ tid, (∀ t ∈ s.infrastructure_templates, t.id ≠ tid) →
        templatesGetById s uid tid = .err 404 "Template not found") ∧
    ((s.deployments.map (·.id)).Nodup →
      ∀ d ∈ s.deployments,
        (∀ t ∈ s.infrastructure_templates, t.id = d.template_id →
          ownsProject s t.project_id uid = false) →
        deploymentsGetById s uid d.id = .err 404 "Deployment not found") ∧
    (∀ did, (∀ d ∈ s.deployments, d.id ≠ did) →
        deploymentsGetById s uid did = .err 404 "Deployment not found") ∧
    (∀ pid b,
        (projectsGetById s uid pid).code ≠ 403 ∧
        ((projectsUpdate s uid pid b).2).code ≠ 403 ∧
        ((projectsDelete s uid pid).2).code ≠ 403 ∧
        (analysisGetById s uid pid).code ≠ 403 ∧
        (templatesGetById s uid pid).code ≠ 403 ∧
        (deploymentsGetById s uid pid).code ≠ 403) := by
  refine ⟨?_, ?_, ?_, ?_, ?_, ?_, ?_, ?_, fun pid b => ops_never_forbidden s uid pid b⟩
  · intro hnd p hp hne
    refine projects_ops_not_found s uid p.id ?_
    intro q hq ⟨h1, h2⟩
    have : q = p := List.inj_on_of_nodup_map hnd hq hp h1
    rw [this] at h2
    exact hne h2
  · intro pid habs
    refine projects_ops_not_found s uid pid ?_
    intro q hq ⟨h1, _⟩
    exact habs q hq h1
  · intro hnd a ha hown
    refine analysisGetById_not_found s uid a.id ?_
    intro x hx ⟨h1, h2⟩
    have : x = a := List.inj_on_of_nodup_map hnd hx ha h1
    rw [this, hown] at h2
    exact Bool.false_ne_true h2
  · intro aid habs
    refine analysisGetById_not_found s uid aid ?_
    intro x hx ⟨h1, _⟩
    exact habs x hx h1
  · intro hnd t ht hown
    refine templatesGetById_not_found s uid t.id ?_
    intro x hx ⟨h1, h2⟩
    have : x = t := List.inj_on_of_nodup_map hnd hx ht h1
    rw [this, hown] at h2
    exact Bool.false_ne_true h2
  · intro tid habs
    refine templatesGetById_not_found s uid tid ?_
    intro x hx ⟨h1, _⟩
    exact habs x hx h1
  · intro hnd d hd hchain
    refine deploymentsGetById_not_found s uid d.id ?_
    intro x hx ⟨h1, h2⟩
    have hxd : x = d := List.inj_on_of_nodup_map hnd hx hd h1
    rw [hxd] at h2
    obtain ⟨t, ht, hpred⟩ := List.any_eq_true.mp h2
    simp only [Bool.and_eq_true, beq_iff_eq] at hpred
    have := hchain t ht hpred.1
    rw [this] at hpred
    exact Bool.false_ne_true hpred.2
  · intro did habs
    refine deploymentsGetById_not_found s uid did ?_
    intro x hx ⟨h1, _⟩
    exact habs x hx h1

theorem ownership_hidden_as_not_found_witness :
    projectsGetById
      { users := [],
        projects :=
          [{ id := 1, user_id := 1, name := "mine", description := none,
             repository_url := none, language := none, framework := none,
             status := "active" },
           { id := 2, user_id := 2, name := "theirs", description := none,
             repository_url := none, language := none, framework := none,
             status := "active" }],
        code_analyses :=
          [{ id := 1, project_id := 2, file_path := "a.js", language := none,
             framework := none, dependencies := none, requirements := none,
             analysis_results := none, status := "completed" }],
        infrastructure_templates :=
          [{ id := 1, project_id := 2, template_type := "terraform",
             template_content := "t", estimated_cost := 10, resources := "r",
             optimization_suggestions := "o" }],
        deployments :=
          [{ id := 1, template_id := 1, status := "completed",
             deployment_url := none, terraform_state_url := none,
             logs := none, error_message := none }] }
      1 2 = .err 404 "Project not found" ∧
    projectsGetById
      { users := [],
        projects :=
          [{ id := 1, user_id := 1, name := "mine", description := none,
             repository_url := none, language := none, framework := none,
             status := "active" },
           { id := 2, user_id := 2, name := "theirs", description := none,
             repository_url := none, language := none, framework := none,
             status := "active" }],
        code_analyses :=
          [{ id := 1, project_id := 2, file_path := "a.js", language := none,
             framework := none, dependencies := none, requirements := none,
             analysis_results := none, status := "completed" }],
        infrastructure_templates :=
          [{ id := 1, project_id := 2, template_type := "terraform",
             template_content := "t", estimated_cost := 10, resources := "r",
             optimization_suggestions := "o" }],
        deployments :=
          [{ id := 1, template_id := 1, status := "completed",
             deployment_url := none, terraform_state_url := none,
             logs := none, error_message := none }] }
      1 99 = .err 404 "Project not found" ∧
    analysisGetById
      { users := [],
        projects :=
          [{ id := 1, user_id := 1, name := "mine", description := none,
             repository_url := none, language := none, framework := none,
             status := "active" },
           { id := 2, user_id := 2, name := "theirs", description := none,
             repository_url := none, language := none, framework := none,
             status := "active" }],
        code_analyses :=
          [{ id := 1, project_id := 2, file_path := "a.js", language := none,
             framework := none, dependencies := none, requirements := none,
             analysis_results := none, status := "completed" }],
        infrastructure_templates :=
          [{ id := 1, project_id := 2, template_type := "terraform",
             template_content := "t", estimated_cost := 10, resources := "r",
             optimization_suggestions := "o" }],
        deployments :=
          [{ id := 1, template_id := 1, status := "completed",
             deployment_url := none, terraform_state_url := none,
             logs := none, error_message := none }] }
      1 1 = .err 404 "Analysis not found" ∧
    templatesGetById
      { users := [],
        projects :=
          [{ id := 1, user_id := 1, name := "mine", description := none,
             repository_url := none, language := none, framework := none,
             status := "active" },
           { id := 2, user_id := 2, name := "theirs", description := none,
             repository_url := none, language := none, framework := none,
             status := "active" }],
        code_analyses :=
          [{ id := 1, project_id := 2, file_path := "a.js", language := none,
             framework := none, dependencies := none, requirements := none,
             analysis_results := none, status := "completed" }],
        infrastructure_templates :=
          [{ id := 1, project_id := 2, template_type := "terraform",
             template_content := "t", estimated_cost := 10, resources := "r",
             optimization_suggestions := "o" }],
        deployments :=
          [{ id := 1, template_id := 1, status := "completed",
             deployment_url := none, terraform_state_url := none,
             logs := none, error_message := none }] }
      1 1 = .err 404 "Template not found" ∧
    deploymentsGetById
      { users := [],
        projects :=
          [{ id := 1, user_id := 1, name := "mine", description := none,
             repository_url := none, language := none, framework := none,
             status := "active" },
           { id := 2, user_id := 2, name := "theirs", description := none,
             repository_url := none, language := none, framework := none,
             status := "active" }],
        code_analyses :=
          [{ id := 1, project_id := 2, file_path := "a.js", language := none,
             framework := none, dependencies := none, requirements := none,
             analysis_results := none, status := "completed" }],
        infrastructure_templates :=
          [{ id := 1, project_id := 2, template_type := "terraform",
             template_content := "t", estimated_cost := 10, resources := "r",
             optimization_suggestions := "o" }],
        deployments :=
          [{ id := 1, template_id := 1, status := "completed",
             deployment_url := none, terraform_state_url := none,
             logs := none, error_message := none }] }
      1 1 = .err 404 "Deployment not found" := by
  refine ⟨?_, ?_, ?_, ?_, ?_⟩
  · exact ((ownership_hidden_as_not_found _ 1).1 (by decide)
      { id := 2, user_id := 2, name := "theirs", description := none,
        repository_url := none, language := none, framework := none,
        status := "active" } (by decide) (by decide)).1
  · exact ((ownership_hidden_as_not_found _ 1).2.1 99 (by decide)).1
  · exact (ownership_hidden_as_not_found _ 1).2.2.1 (by decide)
      { id := 1, project_id := 2, file_path := "a.js", language := none,
        framework := none, dependencies := none, requirements := none,
        analysis_results := none, status := "completed" } (by decide) (by decide)
  · exact (ownership_hidden_as_not_found _ 1).2.2.2.2.1 (by decide)
      { id := 1, project_id := 2, template_type := "terraform",
        template_content := "t", estimated_cost := 10, resources := "r",
        optimization_suggestions := "o" } (by decide) (by decide)
  · exact (ownership_hidden_as_not_found _ 1).2.2.2.2.2.2.1 (by decide)
      { id := 1, template_id := 1, status := "completed",
        deployment_url := none, terraform_state_url := none,
        logs := none, error_message := none } (by decide) (by decide)

end AutoStack
